import Mathlib

/-!
Verification of the conversation-context manager of the groq-chatbot-render
repository (`src/app.py`), as specified in its design document.

The embedding models, faithfully to the Python source:
  * the MongoDB `conversations` collection as a list of documents
    (`Store`), with the exact query/update operations the routes issue
    (`findOne`, `pushUpsert`, `pushOnly`, `deleteOne`, `insertEmptyDoc`);
  * the `/chat` handler (`chat`), the `/history` handler (`getHistory`),
    the `/clear` handler (`clearChat`) and the `/test-mongodb` handler
    (`testMongodb`);
  * the context-window assembly inlined in `/chat` (`buildMessages`).

Store unavailability is modelled by `Option Store` (`none` corresponds to
the Python global `conversations` being `None`), and the per-call
`try/except` blocks around individual store operations by explicit
boolean failure flags (a raised exception is caught and the operation has
no effect, exactly as in the source).  The Groq client is modelled as an
optional function from the assembled message list to `Except String
String`: `none` is an unconfigured client, `Except.error e` is an
exception with text `e` raised by `chat.completions.create`, and
`Except.ok r` is a successful completion whose first choice content is
`r`.  Python `None` values flowing through message contents (e.g. a JSON
body without a `"message"` key) are modelled by `Option String`.
Timestamps (`datetime.now()`) are modelled as `Nat` values supplied by the
caller.
-/

namespace GroqChatbot

/-- A message as stored in a conversation document: `role`, `content`
(possibly JSON `null`, hence `Option`), and the `timestamp` recorded at
append time (app.py lines 150-154, 218-222). -/
structure StoredMsg where
  role : String
  content : Option String
  timestamp : Nat
deriving DecidableEq, Repr

/-- A message as sent to the completion API: only `role` and `content`
(app.py lines 181-198). -/
structure ApiMsg where
  role : String
  content : Option String
deriving DecidableEq, Repr

/-- A document of the `conversations` collection.  `created_at` and
`updated_at` are `Option Nat` because a document created by the
upsert of `update_one` (app.py lines 147-158) has neither field, while
`insert_one` (lines 121-126, 270-275) sets both. -/
structure Doc where
  session_id : String
  messages : List StoredMsg
  created_at : Option Nat
  updated_at : Option Nat
deriving DecidableEq, Repr

/-- The `conversations` collection: an ordered list of documents, in
insertion order (MongoDB natural order for these unsorted queries). -/
abbrev Store := List Doc

/-- `conversations.find_one({'session_id': t})`: the first document whose
`session_id` equals `t`. -/
def findOne : Store → String → Option Doc
  | [], _ => none
  | d :: ds, t => if d.session_id = t then some d else findOne ds t

/-- `conversations.update_one({'session_id': t}, {'$push': {'messages': m},
'$set': {'updated_at': now}}, upsert=True)` (app.py lines 147-158): append
`m` to the messages of the first matching document and set its
`updated_at`; if no document matches, insert a fresh document holding just
`m` (the upserted document has no `created_at` field). -/
def pushUpsert : Store → String → StoredMsg → Nat → Store
  | [], t, m, now => [⟨t, [m], none, some now⟩]
  | d :: ds, t, m, now =>
    if d.session_id = t then
      ⟨d.session_id, d.messages ++ [m], d.created_at, some now⟩ :: ds
    else
      d :: pushUpsert ds t m now

/-- `conversations.update_one({'session_id': t}, {'$push': {'messages':
m}})` (app.py lines 216-223): append `m` to the first matching document.
No `$set` on `updated_at` and no upsert: a missing document makes the
call a no-op. -/
def pushOnly : Store → String → StoredMsg → Store
  | [], _, _ => []
  | d :: ds, t, m =>
    if d.session_id = t then
      ⟨d.session_id, d.messages ++ [m], d.created_at, d.updated_at⟩ :: ds
    else
      d :: pushOnly ds t m

/-- `conversations.delete_one({'session_id': t})` (app.py line 264):
remove the first matching document, if any. -/
def deleteOne : Store → String → Store
  | [], _ => []
  | d :: ds, t => if d.session_id = t then ds else d :: deleteOne ds t

/-- `conversations.insert_one({'session_id': t, 'messages': [],
'created_at': now, 'updated_at': now})` (app.py lines 270-275). -/
def insertEmptyDoc (s : Store) (t : String) (now : Nat) : Store :=
  s ++ [⟨t, [], some now, some now⟩]

/-- The hard-coded system prompt (app.py line 183). -/
def systemPrompt : String :=
  "You are a helpful AI assistant. Provide clear, concise, and accurate responses."

/-- The system message placed first in every completion request
(app.py lines 181-184). -/
def systemApiMsg : ApiMsg := ⟨"system", some systemPrompt⟩

/-- Fixed advisory returned when the Groq client is unconfigured
(app.py lines 163-167). -/
def groqMissingResponse : String :=
  "⚠️ Groq API is not configured. Please add GROQ_API_KEY to environment variables."

/-- Fixed apology returned when the completion call raises
(app.py lines 229-234). -/
def groqErrorResponse : String :=
  "I encountered an error with the AI service. Please try again."

/-- Python `l[-n:]`: the last `min n l.length` elements of `l`, in their
original order. -/
def takeLast (n : Nat) (l : List α) : List α := l.drop (l.length - n)

/-- Context-window assembly inlined in `/chat` (app.py lines 177-198).
`chatHistory` is the fetched document's message list (`some` when
`find_one` returned a document — every document of this collection has a
`messages` key — and `none` when the store is unavailable, the fetch
raised, or no document matched).  A system message comes first; when a
document was found, the last 10 stored messages are appended projected to
role/content; otherwise exactly one user message holding the current
input is appended. -/
def buildMessages (chatHistory : Option (List StoredMsg))
    (userMessage : Option String) : List ApiMsg :=
  match chatHistory with
  | some msgs => systemApiMsg :: (takeLast 10 msgs).map (fun m => ⟨m.role, m.content⟩)
  | none => [systemApiMsg, ⟨"user", userMessage⟩]

/-- The history sequence an abstract `fetch` yields from a fetch result:
the stored sequence when a document was found, the empty sequence
otherwise (spec §4.2: `fetch` "returns the full stored sequence, or empty
sequence if none exists"). -/
def fetchedHistory (chatHistory : Option (List StoredMsg)) : List StoredMsg :=
  chatHistory.getD []

/-- Observable outcome of one `POST /chat` request: the JSON body
(`response`, `status`), the resulting store (`conn`), and the message
list passed to the completion call (`sent`, `none` when no call was
made). -/
structure ChatOutcome where
  response : String
  status : String
  conn : Option Store
  sent : Option (List ApiMsg)
deriving Repr

/-- The store after the guarded save of the user message (app.py lines
144-160): no-op when the store handle is `None` or the `update_one`
raises (the exception is caught and logged). -/
def chatConn1 (conn : Option Store) (pushFails : Bool) (sessionId : String)
    (userMessage : Option String) (t1 : Nat) : Option Store :=
  conn.map (fun s =>
    if pushFails then s
    else pushUpsert s sessionId ⟨"user", userMessage, t1⟩ t1)

/-- The guarded history fetch (app.py lines 169-175): `None` when the
store handle is `None` or `find_one` raises (caught and logged). -/
def chatHistoryOf (conn1 : Option Store) (findFails : Bool)
    (sessionId : String) : Option Doc :=
  match conn1 with
  | none => none
  | some s => if findFails then none else findOne s sessionId

/-- The `/chat` handler (app.py lines 133-241), after session resolution:
`sessionId` is the resolved token (lines 138-142), `userMessage` is
`request.json.get('message')` (`none` when the key is absent), `conn` is
the `conversations` handle, the three flags make the corresponding store
call raise (each is wrapped in its own `try/except` that logs and
continues), `groq` is the client, and `t1`, `t2` are the `datetime.now()`
values at the two append sites. -/
def chat (conn : Option Store) (pushFails findFails push2Fails : Bool)
    (userMessage : Option String) (sessionId : String)
    (groq : Option (List ApiMsg → Except String String))
    (t1 t2 : Nat) : ChatOutcome :=
  let conn1 := chatConn1 conn pushFails sessionId userMessage t1
  match groq with
  | none => ⟨groqMissingResponse, "error", conn1, none⟩
  | some g =>
    let messages :=
      buildMessages ((chatHistoryOf conn1 findFails sessionId).map Doc.messages)
        userMessage
    match g messages with
    | Except.error _ => ⟨groqErrorResponse, "error", conn1, some messages⟩
    | Except.ok aiResponse =>
      let conn2 : Option Store :=
        conn1.map (fun s =>
          if push2Fails then s
          else pushOnly s sessionId ⟨"assistant", some aiResponse, t2⟩)
      ⟨aiResponse, "success", conn2, some messages⟩

/-- The `/history` handler (app.py lines 243-255): the `messages` field of
the JSON response.  Empty when no session id is present (or it is the
falsy empty string), the store is unavailable, the fetch raises, or no
document matches. -/
def getHistory (conn : Option Store) (findFails : Bool)
    (sessionId : Option String) : List StoredMsg :=
  match sessionId, conn with
  | some t, some s =>
    if t = "" then []
    else if findFails then []
    else
      match findOne s t with
      | some d => d.messages
      | none => []
  | _, _ => []

/-- Observable outcome of one `POST /clear` request: the JSON body
(`status`, optional `message`), the resulting store, and the session
token after the request. -/
structure ClearOutcome where
  status : String
  message : Option String
  conn : Option Store
  sessionId : Option String
deriving Repr

/-- The `/clear` handler (app.py lines 257-283).  Only when a (truthy)
session id exists and the store is available does it delete the old
conversation, rotate the token to `newToken`, and insert a fresh empty
conversation; the token rotation happens before the insert, so a raising
insert leaves the token already rotated.  Any other path returns success
with the state untouched. -/
def clearChat (conn : Option Store) (sessionId : Option String)
    (newToken : String) (deleteFails insertFails : Bool)
    (now : Nat) : ClearOutcome :=
  match sessionId, conn with
  | some t, some s =>
    if t = "" then ⟨"success", none, some s, some t⟩
    else if deleteFails then
      ⟨"error", some "Failed to clear chat", some s, some t⟩
    else
      let s1 := deleteOne s t
      if insertFails then
        ⟨"error", some "Failed to clear chat", some s1, some newToken⟩
      else
        ⟨"success", some "Chat cleared successfully",
          some (insertEmptyDoc s1 newToken now), some newToken⟩
  | _, _ => ⟨"success", none, conn, sessionId⟩

/-- A JSON body `{status, message}` as returned by `/test-mongodb`. -/
structure RouteResponse where
  status : String
  message : String
deriving DecidableEq, Repr

/-- The `/test-mongodb` handler (app.py lines 306-334).  The
insert-then-delete of the test document is abstracted into one store
operation outcome `storeOp`: `Except.error e` is an exception with text
`e` raised by either call (the test document otherwise comes and goes,
leaving the collection unchanged).  On error the raw exception text is
interpolated into the response. -/
def testMongodb (conn : Option Store)
    (storeOp : Except String Unit) : RouteResponse :=
  match conn with
  | none => ⟨"error", "MongoDB is not connected"⟩
  | some _ =>
    match storeOp with
    | Except.error e => ⟨"error", "MongoDB test failed: " ++ e⟩
    | Except.ok _ => ⟨"success", "MongoDB connection is working!"⟩

/-! ### Store lemmas -/

theorem findOne_pushUpsert_self (s : Store) (t : String) (m : StoredMsg)
    (now : Nat) :
    findOne (pushUpsert s t m now) t =
      some (match findOne s t with
        | some d => ⟨d.session_id, d.messages ++ [m], d.created_at, some now⟩
        | none => ⟨t, [m], none, some now⟩) := by
  induction s with
  | nil => simp [pushUpsert, findOne]
  | cons d ds ih =>
    by_cases h : d.session_id = t
    · simp [pushUpsert, findOne, h]
    · simp [pushUpsert, findOne, h, ih]

theorem findOne_pushOnly_self (s : Store) (t : String) (m : StoredMsg) :
    findOne (pushOnly s t m) t =
      (findOne s t).map (fun d =>
        ⟨d.session_id, d.messages ++ [m], d.created_at, d.updated_at⟩) := by
  induction s with
  | nil => simp [pushOnly, findOne]
  | cons d ds ih =>
    by_cases h : d.session_id = t
    · simp [pushOnly, findOne, h]
    · simp [pushOnly, findOne, h, ih]

theorem findOne_eq_none_of_not_mem (s : Store) (t : String)
    (h : t ∉ s.map Doc.session_id) : findOne s t = none := by
  induction s with
  | nil => simp [findOne]
  | cons d ds ih =>
    simp only [List.map_cons, List.mem_cons, not_or] at h
    have hd : ¬d.session_id = t := fun hc => h.1 hc.symm
    simp [findOne, hd, ih h.2]

theorem findOne_deleteOne_self (s : Store) (t : String)
    (h : (s.map Doc.session_id).Nodup) :
    findOne (deleteOne s t) t = none := by
  induction s with
  | nil => simp [deleteOne, findOne]
  | cons d ds ih =>
    simp only [List.map_cons, List.nodup_cons] at h
    by_cases hd : d.session_id = t
    · subst hd
      simp [deleteOne, findOne_eq_none_of_not_mem ds _ h.1]
    · simp [deleteOne, findOne, hd, ih h.2]

theorem findOne_deleteOne_of_none (s : Store) (t u : String)
    (h : findOne s u = none) : findOne (deleteOne s t) u = none := by
  induction s with
  | nil => simpa [deleteOne] using h
  | cons d ds ih =>
    simp only [findOne] at h
    by_cases hu : d.session_id = u
    · simp [hu] at h
    · simp only [findOne, hu, if_false] at h
      by_cases hd : d.session_id = t
      · simp [deleteOne, hd, h]
      · simp [deleteOne, findOne, hd, hu, ih h]

theorem findOne_append (s1 s2 : Store) (t : String) :
    findOne (s1 ++ s2) t =
      match findOne s1 t with
      | some d => some d
      | none => findOne s2 t := by
  induction s1 with
  | nil => simp [findOne]
  | cons d ds ih =>
    by_cases h : d.session_id = t
    · simp [findOne, h]
    · simp [findOne, h, ih]

theorem takeLast_length (n : Nat) (l : List α) :
    (takeLast n l).length = min n l.length := by
  simp [takeLast]
  omega

/-! ### Claim theorems -/

/-- C1: Context window bounding.  When the fetched history is non-empty,
the assembled completion request is the system message followed by the
last `min 10 (length history)` stored messages, projected to
role/content, in their original stored order; in particular its length is
`1 + min 10 (length history)` (so 11 for a 15-message history). -/
theorem chat_context_window_bounded (msgs : List StoredMsg) (u : Option String)
    (_h : msgs ≠ []) :
    buildMessages (some msgs) u =
      systemApiMsg ::
        (msgs.drop (msgs.length - 10)).map (fun m => ApiMsg.mk m.role m.content)
    ∧ (buildMessages (some msgs) u).length = 1 + min 10 msgs.length := by
  refine ⟨rfl, ?_⟩
  simp [buildMessages, takeLast_length]
  omega

/-- A concrete 15-message history used to instantiate C1. -/
def sampleHistory15 : List StoredMsg :=
  (List.range 15).map (fun i => ⟨"user", some (toString i), i⟩)

/-- C1 witness: at the concrete 15-message history, the hypothesis holds
and the assembled request has exactly 11 messages. -/
theorem chat_context_window_bounded_witness :
    sampleHistory15 ≠ []
    ∧ (buildMessages (some sampleHistory15) (some "hi") =
        systemApiMsg ::
          (sampleHistory15.drop (sampleHistory15.length - 10)).map
            (fun m => ApiMsg.mk m.role m.content)
      ∧ (buildMessages (some sampleHistory15) (some "hi")).length =
          1 + min 10 sampleHistory15.length)
    ∧ (buildMessages (some sampleHistory15) (some "hi")).length = 11 :=
  ⟨by decide, chat_context_window_bounded sampleHistory15 (some "hi") (by decide),
    by decide⟩

/-- C2 counterexample: a conversation document that exists with an empty
`messages` list yields the empty fetched history, yet `build` returns
only the system message — not the two messages `[system, {user, "hi"}]`
the claim requires: the source branches on document presence
(`if chat_history and 'messages' in chat_history`, app.py line 187), not
on emptiness of the sequence, so the user-message fallback is skipped. -/
theorem build_empty_history_counterexample :
    fetchedHistory (some []) = []
    ∧ buildMessages (some []) (some "hi") ≠
        [systemApiMsg, ApiMsg.mk "user" (some "hi")] := by
  refine ⟨rfl, fun hcon => ?_⟩
  simpa [buildMessages, takeLast] using congrArg List.length hcon

/-- C2 amended: when no conversation document is available (`chat_history`
is `None`: store unavailable, fetch raised, or no document matched),
`build` returns exactly the system message followed by one user message
holding the current input; when a document exists whose `messages` list
is empty, `build` returns the system message alone. -/
theorem build_empty_history_amended (u : Option String) :
    buildMessages none u = [systemApiMsg, ApiMsg.mk "user" u]
    ∧ buildMessages (some []) u = [systemApiMsg] :=
  ⟨rfl, rfl⟩

/-- C6: Append/fetch round trip.  Fetching immediately after the upsert
append (the user-message save of `/chat`) yields a non-empty sequence
whose last element is the appended message, whether or not a conversation
for the token existed before. -/
theorem append_fetch_round_trip (s : Store) (t : String) (m : StoredMsg)
    (now : Nat) :
    ((findOne (pushUpsert s t m now) t).map Doc.messages).getD [] ≠ []
    ∧ (((findOne (pushUpsert s t m now) t).map Doc.messages).getD []).getLast?
        = some m := by
  rw [findOne_pushUpsert_self]
  cases hf : findOne s t with
  | none => simp
  | some d => simp

/-- C8: Completion errors never leak.  Whatever exception text `e` the
completion call raises, and whatever the rest of the state is, `/chat`
returns the fixed generic apology (independent of `e`) with status
`"error"`; the handler is total, so nothing propagates past it. -/
theorem completion_error_never_leaks (conn : Option Store)
    (pf ff p2f : Bool) (u : Option String) (sid : String) (e : String)
    (t1 t2 : Nat) :
    (chat conn pf ff p2f u sid (some (fun _ => Except.error e)) t1 t2).response
      = "I encountered an error with the AI service. Please try again."
    ∧ (chat conn pf ff p2f u sid (some (fun _ => Except.error e)) t1 t2).status
      = "error" :=
  ⟨rfl, rfl⟩

/-- C10: `/test-mongodb` exposes internal error text.  Whenever the store
operation raises an exception with text `e`, the JSON response is status
`"error"` with the raw exception string interpolated verbatim into the
`message` field. -/
theorem test_mongodb_exposes_exception (s : Store) (e : String) :
    testMongodb (some s) (Except.error e) =
      ⟨"error", "MongoDB test failed: " ++ e⟩ :=
  rfl

/-- C4 counterexample: with the store unavailable (`conversations` is
`None`) and prior session token `"tok"`, `POST /clear` leaves the session
token unchanged at `"tok"` (and touches no store), refuting "for every
prior state, /clear produces a session token different from the one
before": the rotation only happens inside the
`if session_id and conversations is not None` branch (app.py line 262),
and the fall-through at line 283 returns success without rotating. -/
theorem clear_rotates_token_counterexample :
    (clearChat none (some "tok") "newTok" false false 0).sessionId = some "tok"
    ∧ (clearChat none (some "tok") "newTok" false false 0).status = "success" :=
  ⟨rfl, rfl⟩

/-- C4 amended: when a (non-empty) session token exists, the store is
available, neither store call raises, and the freshly generated token is
genuinely new (distinct from the old token and from every stored id),
`POST /clear` rotates the session token, deletes the old conversation
(assuming the store's invariant of one document per token), and creates a
new empty conversation under the new token; when the store is unavailable
or no session exists, `/clear` returns success with the token and store
untouched. -/
theorem clear_rotates_token_amended (s : Store) (t newTok : String)
    (now : Nat) (ht : t ≠ "") (hne : newTok ≠ t)
    (hnodup : (s.map Doc.session_id).Nodup)
    (hfresh : findOne s newTok = none) :
    (clearChat (some s) (some t) newTok false false now).sessionId = some newTok
    ∧ (clearChat (some s) (some t) newTok false false now).sessionId ≠ some t
    ∧ (clearChat (some s) (some t) newTok false false now).status = "success"
    ∧ (clearChat (some s) (some t) newTok false false now).conn =
        some (insertEmptyDoc (deleteOne s t) newTok now)
    ∧ findOne (insertEmptyDoc (deleteOne s t) newTok now) t = none
    ∧ findOne (insertEmptyDoc (deleteOne s t) newTok now) newTok =
        some ⟨newTok, [], some now, some now⟩
    ∧ (clearChat none (some t) newTok false false now).sessionId = some t := by
  refine ⟨by simp [clearChat, ht], ?_, by simp [clearChat, ht],
    by simp [clearChat, ht], ?_, ?_, rfl⟩
  · simp [clearChat, ht]
    exact hne
  · rw [insertEmptyDoc, findOne_append, findOne_deleteOne_self s t hnodup]
    simp [findOne, hne]
  · rw [insertEmptyDoc, findOne_append,
      findOne_deleteOne_of_none s t newTok hfresh]
    simp [findOne]

/-- C4 witness: the amended theorem instantiated at a one-conversation
store with old token `"tok"` and fresh token `"new"`. -/
theorem clear_rotates_token_amended_witness :
    (("tok" : String) ≠ "" ∧ ("new" : String) ≠ "tok"
      ∧ ([Doc.mk "tok" [] (some 0) (some 0)].map Doc.session_id).Nodup
      ∧ findOne [Doc.mk "tok" [] (some 0) (some 0)] "new" = none)
    ∧ ((clearChat (some [Doc.mk "tok" [] (some 0) (some 0)]) (some "tok")
          "new" false false 1).sessionId = some "new"
      ∧ (clearChat (some [Doc.mk "tok" [] (some 0) (some 0)]) (some "tok")
          "new" false false 1).sessionId ≠ some "tok"
      ∧ (clearChat (some [Doc.mk "tok" [] (some 0) (some 0)]) (some "tok")
          "new" false false 1).status = "success"
      ∧ (clearChat (some [Doc.mk "tok" [] (some 0) (some 0)]) (some "tok")
          "new" false false 1).conn =
          some (insertEmptyDoc (deleteOne [Doc.mk "tok" [] (some 0) (some 0)]
            "tok") "new" 1)
      ∧ findOne (insertEmptyDoc (deleteOne [Doc.mk "tok" [] (some 0) (some 0)]
          "tok") "new" 1) "tok" = none
      ∧ findOne (insertEmptyDoc (deleteOne [Doc.mk "tok" [] (some 0) (some 0)]
          "tok") "new" 1) "new" = some ⟨"new", [], some 1, some 1⟩
      ∧ (clearChat none (some "tok") "new" false false 1).sessionId =
          some "tok") :=
  ⟨⟨by decide, by decide, by decide, by decide⟩,
    clear_rotates_token_amended [Doc.mk "tok" [] (some 0) (some 0)] "tok"
      "new" 1 (by decide) (by decide) (by decide) (by decide)⟩

/-- C5 counterexample: a complete successful `/chat` exchange on an
existing conversation, with the user message appended at time 5 and the
assistant reply appended at time 7, leaves the document's `updated_at` at
5 — the assistant-reply append does not set it (its `update_one`, app.py
lines 216-223, has no `$set` on `updated_at`), refuting "every append
within a /chat request sets the conversation's updated_at". -/
theorem append_updated_at_counterexample :
    ((findOne ((chat (some [Doc.mk "a" [] (some 0) (some 0)]) false false
        false (some "hi") "a" (some (fun _ => Except.ok "yo")) 5 7).conn.getD [])
        "a").map Doc.updated_at) = some (some 5)
    ∧ (5 : Nat) ≠ 7 :=
  ⟨rfl, by decide⟩

/-- C5 amended: within a `/chat` request against an existing conversation,
the user-message append (upserting `update_one`) appends to `messages`
and sets `updated_at` to the append time, leaving `session_id`,
`created_at` and the prior messages unchanged; the assistant-reply append
appends to `messages` only, leaving `updated_at` (as well as
`session_id` and `created_at`) unchanged. -/
theorem append_updated_at_amended (s : Store) (t : String) (m : StoredMsg)
    (now : Nat) (d : Doc) (h : findOne s t = some d) :
    findOne (pushUpsert s t m now) t =
      some ⟨d.session_id, d.messages ++ [m], d.created_at, some now⟩
    ∧ findOne (pushOnly s t m) t =
      some ⟨d.session_id, d.messages ++ [m], d.created_at, d.updated_at⟩ := by
  rw [findOne_pushUpsert_self, findOne_pushOnly_self, h]
  exact ⟨rfl, rfl⟩

/-- C5 witness: the amended theorem instantiated at a store holding one
conversation for token `"a"`. -/
theorem append_updated_at_amended_witness :
    findOne [Doc.mk "a" [] (some 0) (some 0)] "a" =
        some (Doc.mk "a" [] (some 0) (some 0))
    ∧ (findOne (pushUpsert [Doc.mk "a" [] (some 0) (some 0)] "a"
          (StoredMsg.mk "assistant" (some "yo") 7) 7) "a" =
        some ⟨"a", [] ++ [StoredMsg.mk "assistant" (some "yo") 7], some 0,
          some 7⟩
      ∧ findOne (pushOnly [Doc.mk "a" [] (some 0) (some 0)] "a"
          (StoredMsg.mk "assistant" (some "yo") 7)) "a" =
        some ⟨"a", [] ++ [StoredMsg.mk "assistant" (some "yo") 7], some 0,
          some 0⟩) :=
  ⟨by decide,
    append_updated_at_amended [Doc.mk "a" [] (some 0) (some 0)] "a"
      (StoredMsg.mk "assistant" (some "yo") 7) 7
      (Doc.mk "a" [] (some 0) (some 0)) (by decide)⟩

/-- C7: Graceful degradation when the store is unavailable — either the
`conversations` handle is `None`, or every store call raises.  `/chat`
with any configured completion function `g` still returns a structured
body whose status is `"success"` or `"error"`, and the completion call is
still attempted with no memory of past turns (the message list sent is
exactly the system message plus the current user message); with no
completion client configured the status is `"error"`; and `/history`
returns the empty message list. -/
theorem chat_store_unavailable_graceful (conn : Option Store)
    (pf ff p2f : Bool) (u : Option String) (sid : String)
    (g : List ApiMsg → Except String String) (t1 t2 : Nat)
    (hunavail : conn = none ∨ (pf = true ∧ ff = true ∧ p2f = true)) :
    ((chat conn pf ff p2f u sid (some g) t1 t2).status = "success"
      ∨ (chat conn pf ff p2f u sid (some g) t1 t2).status = "error")
    ∧ (chat conn pf ff p2f u sid (some g) t1 t2).sent =
        some [systemApiMsg, ApiMsg.mk "user" u]
    ∧ (chat conn pf ff p2f u sid none t1 t2).status = "error"
    ∧ getHistory conn ff (some sid) = [] := by
  have hhist : chatHistoryOf (chatConn1 conn pf sid u t1) ff sid = none := by
    rcases hunavail with hc | ⟨hpf, hff, hp2f⟩
    · subst hc; rfl
    · subst hff
      cases conn with
      | none => rfl
      | some s => simp [chatConn1, chatHistoryOf]
  have hgh : getHistory conn ff (some sid) = [] := by
    rcases hunavail with hc | ⟨hpf, hff, hp2f⟩
    · subst hc; rfl
    · subst hff
      cases conn with
      | none => rfl
      | some s => by_cases hsid : sid = "" <;> simp [getHistory, hsid]
  have hmsgs :
      buildMessages
          ((chatHistoryOf (chatConn1 conn pf sid u t1) ff sid).map Doc.messages)
          u
        = [systemApiMsg, ApiMsg.mk "user" u] := by
    rw [hhist]; rfl
  refine ⟨?_, ?_, rfl, hgh⟩
  · cases hg : g (buildMessages
        ((chatHistoryOf (chatConn1 conn pf sid u t1) ff sid).map Doc.messages)
        u) with
    | error e => exact Or.inr (by simp [chat, hg])
    | ok r => exact Or.inl (by simp [chat, hg])
  · cases hg : g (buildMessages
        ((chatHistoryOf (chatConn1 conn pf sid u t1) ff sid).map Doc.messages)
        u) with
    | error e =>
      rw [hmsgs] at hg
      simp [chat, hmsgs, hg]
    | ok r =>
      rw [hmsgs] at hg
      simp [chat, hmsgs, hg]

/-- C7 witness: the theorem instantiated with the store handle absent, a
completion function that succeeds, message `"hi"` and session `"s"`. -/
theorem chat_store_unavailable_graceful_witness :
    ((none : Option Store) = none ∨ (false = true ∧ false = true ∧ false = true))
    ∧ (((chat none false false false (some "hi") "s"
          (some (fun _ => Except.ok "r")) 0 0).status = "success"
        ∨ (chat none false false false (some "hi") "s"
          (some (fun _ => Except.ok "r")) 0 0).status = "error")
      ∧ (chat none false false false (some "hi") "s"
          (some (fun _ => Except.ok "r")) 0 0).sent =
          some [systemApiMsg, ApiMsg.mk "user" (some "hi")]
      ∧ (chat none false false false (some "hi") "s" none 0 0).status = "error"
      ∧ getHistory none false (some "s") = []) :=
  ⟨Or.inl rfl,
    chat_store_unavailable_graceful none false false false (some "hi") "s"
      (fun _ => Except.ok "r") 0 0 (Or.inl rfl)⟩

theorem takeLast_concat (n : Nat) (l : List α) (a : α) :
    takeLast (n + 1) (l ++ [a]) = takeLast n l ++ [a] := by
  simp only [takeLast, List.length_append, List.length_cons, List.length_nil]
  rw [List.drop_append_of_le_length (by omega)]
  congr 2
  omega

theorem buildMessages_concat_getLast? (l : List StoredMsg) (m : StoredMsg)
    (u : Option String) :
    (buildMessages (some (l ++ [m])) u).getLast? =
      some (ApiMsg.mk m.role m.content) := by
  show (systemApiMsg :: (takeLast 10 (l ++ [m])).map
    (fun x => ApiMsg.mk x.role x.content)).getLast? = _
  rw [show (10 : Nat) = 9 + 1 from rfl, takeLast_concat, List.map_append]
  simp only [List.map_cons, List.map_nil]
  rw [← List.cons_append, List.getLast?_concat]

theorem chat_ok_shape (s : Store) (u : Option String) (sid : String)
    (g : List ApiMsg → Except String String) (t1 t2 : Nat) (r : String)
    (hg : g (buildMessages
        ((findOne (pushUpsert s sid ⟨"user", u, t1⟩ t1) sid).map Doc.messages)
        u) = Except.ok r) :
    chat (some s) false false false u sid (some g) t1 t2 =
      ⟨r, "success",
        some (pushOnly (pushUpsert s sid ⟨"user", u, t1⟩ t1) sid
          ⟨"assistant", some r, t2⟩),
        some (buildMessages
          ((findOne (pushUpsert s sid ⟨"user", u, t1⟩ t1) sid).map Doc.messages)
          u)⟩ := by
  simp [chat, chatConn1, chatHistoryOf, hg]

theorem chat_error_shape (s : Store) (u : Option String) (sid : String)
    (g : List ApiMsg → Except String String) (t1 t2 : Nat) (e : String)
    (hg : g (buildMessages
        ((findOne (pushUpsert s sid ⟨"user", u, t1⟩ t1) sid).map Doc.messages)
        u) = Except.error e) :
    chat (some s) false false false u sid (some g) t1 t2 =
      ⟨groqErrorResponse, "error",
        some (pushUpsert s sid ⟨"user", u, t1⟩ t1),
        some (buildMessages
          ((findOne (pushUpsert s sid ⟨"user", u, t1⟩ t1) sid).map Doc.messages)
          u)⟩ := by
  simp [chat, chatConn1, chatHistoryOf, hg]

/-- C9: No input validation on `/chat`.  When the JSON body lacks the
`"message"` key (`request.json.get('message')` is `None`), the handler
does not reject the request: it proceeds to the normal success/error
paths, a user message with null content is appended to the store (it ends
up in the session's document), and a null-content user message is
forwarded to the completion call as the last message of the assembled
context. -/
theorem chat_no_input_validation (s : Store)
    (g : List ApiMsg → Except String String) (sid : String) (t1 t2 : Nat) :
    ((chat (some s) false false false none sid (some g) t1 t2).status
        = "success"
      ∨ (chat (some s) false false false none sid (some g) t1 t2).status
        = "error")
    ∧ (∃ l, (chat (some s) false false false none sid (some g) t1 t2).sent
          = some l
        ∧ l.getLast? = some (ApiMsg.mk "user" none))
    ∧ (∃ s2, (chat (some s) false false false none sid (some g) t1 t2).conn
          = some s2
        ∧ StoredMsg.mk "user" none t1 ∈
            ((findOne s2 sid).map Doc.messages).getD []) := by
  have hP : ∃ cid pre cd,
      findOne (pushUpsert s sid ⟨"user", none, t1⟩ t1) sid =
        some ⟨cid, pre ++ [StoredMsg.mk "user" none t1], cd, some t1⟩ := by
    rw [findOne_pushUpsert_self]
    cases hf : findOne s sid with
    | none => exact ⟨sid, [], none, by simp⟩
    | some d => exact ⟨d.session_id, d.messages, d.created_at, by simp⟩
  obtain ⟨cid, pre, cd, hP⟩ := hP
  have hlast :
      (buildMessages
          ((findOne (pushUpsert s sid ⟨"user", none, t1⟩ t1) sid).map
            Doc.messages) none).getLast? = some (ApiMsg.mk "user" none) := by
    rw [hP]
    exact buildMessages_concat_getLast? pre (StoredMsg.mk "user" none t1) none
  cases hg : g (buildMessages
      ((findOne (pushUpsert s sid ⟨"user", none, t1⟩ t1) sid).map Doc.messages)
      none) with
  | ok r =>
    rw [chat_ok_shape s none sid g t1 t2 r hg]
    refine ⟨Or.inl rfl, ⟨_, rfl, hlast⟩, ⟨_, rfl, ?_⟩⟩
    rw [findOne_pushOnly_self, hP]
    simp
  | error e =>
    rw [chat_error_shape s none sid g t1 t2 e hg]
    refine ⟨Or.inr rfl, ⟨_, rfl, hlast⟩, ⟨_, rfl, ?_⟩⟩
    rw [hP]
    simp

/-- C3: End-to-end scenario.  With the store connected (no store call
raising), the completion service returning a non-empty reply `r`, and the
session fresh (no stored messages for its token), `POST /chat` with
message `"Hello"` returns response `r` (non-empty) with status
`"success"`, and a subsequent `GET /history` on the resulting store
returns exactly two messages: role `user` content `"Hello"`, then role
`assistant` with content equal to the returned response. -/
theorem chat_end_to_end_scenario (s : Store) (sid r : String) (t1 t2 : Nat)
    (hsid : sid ≠ "") (hr : r ≠ "")
    (hfresh : ((findOne s sid).map Doc.messages).getD [] = []) :
    (chat (some s) false false false (some "Hello") sid
        (some (fun _ => Except.ok r)) t1 t2).response = r
    ∧ (chat (some s) false false false (some "Hello") sid
        (some (fun _ => Except.ok r)) t1 t2).response ≠ ""
    ∧ (chat (some s) false false false (some "Hello") sid
        (some (fun _ => Except.ok r)) t1 t2).status = "success"
    ∧ getHistory (chat (some s) false false false (some "Hello") sid
          (some (fun _ => Except.ok r)) t1 t2).conn false (some sid) =
        [StoredMsg.mk "user" (some "Hello") t1,
          StoredMsg.mk "assistant" (some r) t2] := by
  rw [chat_ok_shape s (some "Hello") sid (fun _ => Except.ok r) t1 t2 r rfl]
  refine ⟨rfl, hr, rfl, ?_⟩
  have hP : findOne (pushUpsert s sid ⟨"user", some "Hello", t1⟩ t1) sid =
      some ⟨(match findOne s sid with
              | some d => d.session_id
              | none => sid),
            [StoredMsg.mk "user" (some "Hello") t1],
            (match findOne s sid with
              | some d => d.created_at
              | none => none), some t1⟩ := by
    rw [findOne_pushUpsert_self]
    cases hf : findOne s sid with
    | none => rfl
    | some d =>
      rw [hf] at hfresh
      simp at hfresh
      simp [hfresh]
  rw [getHistory, if_neg hsid, if_neg (by simp), findOne_pushOnly_self, hP]
  simp

/-- C3 witness: the scenario instantiated on an empty store with session
token `"s"` and a completion service replying `"Hi!"`. -/
theorem chat_end_to_end_scenario_witness :
    (("s" : String) ≠ "" ∧ ("Hi!" : String) ≠ ""
      ∧ ((findOne ([] : Store) "s").map Doc.messages).getD [] = [])
    ∧ ((chat (some ([] : Store)) false false false (some "Hello") "s"
          (some (fun _ => Except.ok "Hi!")) 0 1).response = "Hi!"
      ∧ (chat (some ([] : Store)) false false false (some "Hello") "s"
          (some (fun _ => Except.ok "Hi!")) 0 1).response ≠ ""
      ∧ (chat (some ([] : Store)) false false false (some "Hello") "s"
          (some (fun _ => Except.ok "Hi!")) 0 1).status = "success"
      ∧ getHistory (chat (some ([] : Store)) false false false (some "Hello")
            "s" (some (fun _ => Except.ok "Hi!")) 0 1).conn false (some "s") =
          [StoredMsg.mk "user" (some "Hello") 0,
            StoredMsg.mk "assistant" (some "Hi!") 1]) :=
  ⟨⟨by decide, by decide, rfl⟩,
    chat_end_to_end_scenario [] "s" "Hi!" 0 1 (by decide) (by decide) rfl⟩
